import Mathlib

/-!
Verification of the import reconciliation engine and HTTP save path of the
`api-gestion` repository (files `ban/commands/init.py` and
`ban/http/resources.py`), as a shallow embedding in Lean.

Rows of the input file are association lists from column names to string
values; the store is a record of lists of the five entity kinds.  Python
string slicing is modelled by `pySlice` / `pyDrop`; Python exceptions
(`KeyError` on `dict.pop`, `TypeError` on slicing `None`,
`AttributeError` on attribute access on `None`) are modelled by `Except`.
-/

set_option autoImplicit false

namespace Ban

/-- Python exceptions that the embedded code can raise. -/
inductive PyError where
  | keyError
  | typeError
  | attributeError
  deriving DecidableEq, Repr

/-- Python string slice `s[a:b]` (non-negative indices, as used in the source). -/
def pySlice (s : String) (a b : Nat) : String :=
  String.mk ((s.toList.drop a).take (b - a))

/-- Python string slice `s[a:]` (non-negative index). -/
def pyDrop (s : String) (a : Nat) : String :=
  String.mk (s.toList.drop a)

/-- A JSON record of the import file: an association list of string fields. -/
abbrev Row := List (String × String)

/-- Python `row.get(k)`: `None` when the key is absent. -/
def Row.get (row : Row) (k : String) : Option String :=
  (List.find? (fun p => p.1 == k) row).map (·.2)

/-- Python `row.pop(k)`: raises `KeyError` when the key is absent. -/
def Row.pop (row : Row) (k : String) : Except PyError (String × Row) :=
  match Row.get row k with
  | some v => .ok (v, List.filter (fun p => p.1 != k) row)
  | none => .error .keyError

/-- Python `row[k]`: raises `KeyError` when the key is absent. -/
def Row.item (row : Row) (k : String) : Except PyError String :=
  match Row.get row k with
  | some v => .ok v
  | none => .error .keyError

/-- Python `'tag{}'.format(x)` where `x` may be `None`. -/
def formatOpt (x : Option String) : String :=
  match x with
  | some v => v
  | none => "None"

/-- `init.py` line 65 and line 114: `'{}{}'.format(fantoir[:5], fantoir[6:10])`. -/
def deriveFantoir (raw : String) : String :=
  pySlice raw 0 5 ++ pySlice raw 6 10

/-- Modelled from the spec: `compute_cia` lives in `ban.utils`, which is not
under `src/`.  The spec describes it as a deterministic, order-sensitive
composite key over the four normalized inputs, with an absent ordinal
distinct from an empty-string ordinal. -/
def compute_cia (insee localCode : String) (number ordinal : Option String) : String :=
  insee ++ "_" ++ localCode ++ "_"
    ++ (match number with | none => "-" | some n => "N" ++ n)
    ++ "_"
    ++ (match ordinal with | none => "-" | some o => "O" ++ o)

/-- `init.py` line 147: `cia[:10] + cia[11:]` (remove the control letter). -/
def stripControlChar (cia : String) : String :=
  pySlice cia 0 10 ++ pyDrop cia 11

/-! ## Entities and the store -/

structure MunicipalityE where
  insee : String
  siren : String
  name : Option String
  source : String
  version : Nat
  deriving DecidableEq, Repr

structure GroupE where
  fantoir : String
  name : Option String
  municipality : String
  kind : Option String
  source : Option String
  version : Nat
  deriving DecidableEq, Repr

structure PostCodeE where
  code : Option String
  name : Option String
  municipality : String
  version : Nat
  deriving DecidableEq, Repr

structure HouseNumberE where
  cia : String
  number : Option String
  ordinal : Option String
  parent : String
  version : Nat
  deriving DecidableEq, Repr

structure PositionE where
  housenumber : String
  kind : Option String
  source : Option String
  center : Option String
  positioning : String
  version : Nat
  deriving DecidableEq, Repr

/-- The entity store: the five entity tables. -/
structure Store where
  municipalities : List MunicipalityE
  groups : List GroupE
  postcodes : List PostCodeE
  housenumbers : List HouseNumberE
  positions : List PositionE
  deriving DecidableEq, Repr

def emptyStore : Store := ⟨[], [], [], [], []⟩

/-- `Group.coerce('fantoir:...')`, resolved to a lookup by fantoir. -/
def Store.findGroup (st : Store) (fantoir : String) : Option GroupE :=
  List.find? (fun g => g.fantoir == fantoir) st.groups

/-- `PostCode.first(PostCode.code == code, PostCode.name == name)`. -/
def Store.findPostCode (st : Store) (code name : Option String) : Option PostCodeE :=
  List.find? (fun p => p.code == code && p.name == name) st.postcodes

/-- `HouseNumber.first(HouseNumber.cia == cia)`. -/
def Store.findHousenumber (st : Store) (cia : String) : Option HouseNumberE :=
  List.find? (fun h => h.cia == cia) st.housenumbers

/-- `Position.first(Position.housenumber == hn, Position.kind == kind,
Position.source == source)`. -/
def Store.findPosition (st : Store) (hn : String) (kind source : Option String) :
    Option PositionE :=
  List.find? (fun p => p.housenumber == hn && p.kind == kind && p.source == source)
    st.positions

/-- Resolution of a `"insee:<code>"` tagged natural-key reference. -/
def Store.resolveMunicipalityRef (st : Store) (ref : String) : Bool :=
  if pySlice ref 0 6 == "insee:" then
    List.any st.municipalities (fun m => m.insee == pyDrop ref 6)
  else false

/-- Resolution of a `"fantoir:<code>"` tagged natural-key reference. -/
def Store.resolveGroupRef (st : Store) (ref : String) : Bool :=
  if pySlice ref 0 8 == "fantoir:" then
    (Store.findGroup st (pyDrop ref 8)).isSome
  else false

/-! ## Reporter outcomes -/

/-- One `reporter` outcome for a record (`notice` / `warning` / `error`). -/
inductive Report where
  | notice (msg : String) (arg : String)
  | warning (msg : String) (arg : String)
  | error (msg : String) (arg : String)
  deriving DecidableEq, Repr

/-! ## Validators (modelled from the spec)

The entity validators live in `ban.core.models`, which is not under `src/`.
The spec (§4.2) describes them as checking that required fields are present
and that referenced parent natural keys resolve in the store; on success the
change-set carries the full field set and the version chosen by the caller. -/

/-- Modelled from the spec: `Municipality.validator` field checks
(required fields present; `insee` presence is already forced by
`row['insee']` in the handler). -/
def municipalityValidatorErrors (name : Option String) : Bool :=
  name.isNone

/-- Modelled from the spec: `Group.validator` field checks — required fields
present and the `insee:<code>` parent reference resolvable. -/
def groupValidatorErrors (st : Store) (name kind : Option String)
    (municipality : String) : Bool :=
  name.isNone || kind.isNone || !(Store.resolveMunicipalityRef st municipality)

/-- Modelled from the spec: `PostCode.validator` field checks. -/
def postcodeValidatorErrors (st : Store) (name code : Option String)
    (municipality : String) : Bool :=
  name.isNone || code.isNone || !(Store.resolveMunicipalityRef st municipality)

/-- Modelled from the spec: `HouseNumber.validator` field checks — the
number present and the `fantoir:<code>` parent reference resolvable. -/
def housenumberValidatorErrors (st : Store) (number : Option String)
    (parent : String) : Bool :=
  number.isNone || !(Store.resolveGroupRef st parent)

/-- Modelled from the spec: `Position.validator` field checks (the parent
house number has already been resolved by the handler). -/
def positionValidatorErrors (kind center : Option String) : Bool :=
  kind.isNone || center.isNone

/-! ## Save semantics

Modelled from the spec: `validator.save()` persists the change-set —
an update overwrites the row with the entity's natural key, a create
appends a new row. -/

def Store.saveMunicipality (st : Store) (m : MunicipalityE) : Store :=
  { st with municipalities := st.municipalities ++ [m] }

def Store.saveGroup (st : Store) (update : Bool) (g : GroupE) : Store :=
  if update then
    { st with groups := List.map (fun x => if x.fantoir == g.fantoir then g else x) st.groups }
  else
    { st with groups := st.groups ++ [g] }

def Store.savePostCode (st : Store) (p : PostCodeE) : Store :=
  { st with postcodes := st.postcodes ++ [p] }

def Store.saveHousenumber (st : Store) (update : Bool) (h : HouseNumberE) : Store :=
  if update then
    { st with housenumbers :=
        List.map (fun x => if x.cia == h.cia then h else x) st.housenumbers }
  else
    { st with housenumbers := st.housenumbers ++ [h] }

def Store.savePosition (st : Store) (update : Bool) (p : PositionE) : Store :=
  if update then
    { st with positions := st.positions.map (fun x =>
        if x.housenumber == p.housenumber && x.kind == p.kind && x.source == p.source
        then p else x) }
  else
    { st with positions := st.positions ++ [p] }

/-! ## The per-entity import handlers (`init.py`) -/

/-- `process_municipality` (`init.py` lines 52-60). -/
def process_municipality (st : Store) (row : Row) :
    Except PyError (Store × List Report) := do
  let (source, row) ← Row.pop row "source"
  let insee ← Row.item row "insee"
  let siren := "2101" ++ insee
  let name := Row.get row "name"
  if municipalityValidatorErrors name then
    pure (st, [Report.error "Municipality errors" insee])
  else
    pure (Store.saveMunicipality st ⟨insee, siren, name, source, 1⟩,
      [Report.notice "Imported Municipality" insee])

/-- `process_group` (`init.py` lines 63-89). -/
def process_group (st : Store) (row : Row) :
    Except PyError (Store × List Report) := do
  let municipality := "insee:" ++ formatOpt (Row.get row "municipality:insee")
  let raw ← match Row.get row "group:fantoir" with
    | none => Except.error PyError.typeError
    | some f => pure f
  let fantoir := deriveFantoir raw
  let name := Row.get row "name"
  let kind := Row.get row "group"
  let source := Row.get row "source"
  match Store.findGroup st fantoir with
  | some inst =>
    if inst.source == source then
      pure (st, [Report.warning "Group already exist" fantoir])
    else if groupValidatorErrors st name kind municipality then
      pure (st, [Report.error "Invalid group data" fantoir])
    else
      pure (Store.saveGroup st true ⟨fantoir, name, municipality, kind, source, inst.version + 1⟩,
        [Report.notice "Created group" fantoir])
  | none =>
    if groupValidatorErrors st name kind municipality then
      pure (st, [Report.error "Invalid group data" fantoir])
    else
      pure (Store.saveGroup st false ⟨fantoir, name, municipality, kind, source, 1⟩,
        [Report.notice "Created group" fantoir])

/-- `process_postcode` (`init.py` lines 92-107): never raises. -/
def process_postcode (st : Store) (row : Row) : Store × List Report :=
  let municipality := "insee:" ++ formatOpt (Row.get row "municipality:insee")
  let name := Row.get row "name"
  let code := Row.get row "postcode"
  match Store.findPostCode st code name with
  | some _ => (st, [Report.notice "PostCode already exists" (formatOpt code)])
  | none =>
    if postcodeValidatorErrors st name code municipality then
      (st, [Report.error "PostCode errors" (formatOpt code)])
    else
      (Store.savePostCode st ⟨code, name, municipality, 1⟩,
        [Report.notice "Imported PostCode" (formatOpt code)])

/-- `row.get('ordinal') or None` (`init.py` line 111): the empty string is
falsy and normalizes to `None`. -/
def ordinalOf (row : Row) : Option String :=
  match Row.get row "ordinal" with
  | some s => if s == "" then none else some s
  | none => none

/-- `process_housenumber` (`init.py` lines 110-138).  The source-based dedup
branch (lines 123-126) is commented out in the source and therefore absent
here. -/
def process_housenumber (st : Store) (row : Row) :
    Except PyError (Store × List Report) := do
  let number := Row.get row "numero"
  let ordinal := ordinalOf row
  let raw ← match Row.get row "group:fantoir" with
    | none => Except.error PyError.typeError
    | some f => pure f
  let insee := pySlice raw 0 5
  let fantoir := deriveFantoir raw
  let cia := compute_cia insee (pySlice raw 6 10) number ordinal
  let parent := "fantoir:" ++ fantoir
  match Store.findHousenumber st cia with
  | some inst =>
    if housenumberValidatorErrors st number parent then
      pure (st, [Report.error "HouseNumber errors" parent])
    else
      pure (Store.saveHousenumber st true ⟨cia, number, ordinal, parent, inst.version + 1⟩,
        [Report.notice "HouseNumber Updated" parent])
  | none =>
    if housenumberValidatorErrors st number parent then
      pure (st, [Report.error "HouseNumber errors" parent])
    else
      pure (Store.saveHousenumber st false ⟨cia, number, ordinal, parent, 1⟩,
        [Report.notice "HouseNumber created" parent])

/-- `process_position` (`init.py` lines 141-160). -/
def process_position (st : Store) (row : Row) :
    Except PyError (Store × List Report) := do
  let kind := Row.get row "kind"
  let source := Row.get row "source"
  let rawCia ← match Row.get row "housenumber:cia" with
    | none => Except.error PyError.typeError
    | some c => pure c
  let cia := stripControlChar rawCia
  let center := Row.get row "geometry"
  match Store.findHousenumber st cia with
  | none => pure (st, [Report.error "Position housenumber does not exist" cia])
  | some hn =>
    let inst := Store.findPosition st hn.cia kind source
    let version := match inst with | some i => i.version + 1 | none => 1
    if positionValidatorErrors kind center then
      pure (st, [Report.error "Position error" cia])
    else
      match inst with
      | some _ =>
        pure (Store.savePosition st true ⟨hn.cia, kind, source, center, "other", version⟩,
          [Report.notice "Position updated" cia])
      | none =>
        pure (Store.savePosition st false ⟨hn.cia, kind, source, center, "other", version⟩,
          [Report.notice "Position created" cia])

/-- `process_row` (`init.py` lines 35-49).  `row.pop('type')` raises
`KeyError` when the key is absent; a present-but-empty value reaches the
`if not kind` branch; an unknown kind falls through all branches and
returns `None` (no report, no store change). -/
def process_row (st : Store) (row : Row) : Except PyError (Store × List Report) := do
  let (kind, row) ← Row.pop row "type"
  if kind == "" then
    pure (st, [Report.error "Missing \"type\" key" ""])
  else if kind == "municipality" then process_municipality st row
  else if kind == "group" then process_group st row
  else if kind == "postcode" then pure (process_postcode st row)
  else if kind == "housenumber" then process_housenumber st row
  else if kind == "position" then process_position st row
  else pure (st, [])

/-! ## The HTTP save path (`resources.py`) -/

/-- An HTTP-layer entity, reduced to its resource rendering and version. -/
structure HEntity where
  resource : List (String × String)
  version : Nat
  deriving DecidableEq, Repr

/-- Modelled from the spec: the outcome of `validator.save(instance=...)`
(`ban.core.models`, not under `src/`) — either the persisted entity, or a
version conflict (`ForcedVersionError` / `ConflictError` in the spec, §4.2:
the store refuses the write when the stored version has advanced). -/
inductive PersistOutcome where
  | ok (e : HEntity)
  | conflict
  deriving DecidableEq, Repr

/-- The JSON body written by `resp.json`. -/
inductive RespBody where
  | resource (e : HEntity)
  | fieldErrors (es : List (String × String))
  deriving DecidableEq, Repr

structure HttpResp where
  status : Nat
  body : RespBody
  deriving DecidableEq, Repr

/-- `BaseCRUD.save_object` (`resources.py` lines 96-111).  The model
validator and `validator.save` are in `ban.core.models`, not under `src/`;
modelled from the spec, their outcomes enter as the `errors` and `persist`
arguments, and `stored` is the current entity that the re-fetch
`self.get_object(**kwargs)` returns in the conflict branch.  The `except`
clause names the exception class through the local `instance`
(`except instance.ForcedVersionError`): when `instance` is `None` —
a create-style POST — evaluating it raises `AttributeError` instead of
producing the 409 response. -/
def save_object (errors : List (String × String)) (persist : PersistOutcome)
    (inst : Option HEntity) (hasId : Bool) (stored : HEntity) :
    Except PyError HttpResp :=
  if errors = [] then
    match persist with
    | .ok e => .ok ⟨if hasId then 200 else 201, .resource e⟩
    | .conflict =>
      match inst with
      | some _ => .ok ⟨409, .resource stored⟩
      | none => .error .attributeError
  else
    .ok ⟨422, .fieldErrors errors⟩

/-! ## Concrete stores and rows used by closed theorems -/

def claim5Row : Row := [("insee", "75100")]

def claim6Store : Store :=
  ⟨[⟨"75100", "210175100", some "Paris", "X", 1⟩], [], [], [], []⟩

def claim6Row : Row :=
  [("type", "group"), ("municipality:insee", "75100"),
   ("group:fantoir", "751000001"), ("name", "Rue X"),
   ("group", "way"), ("source", "S")]

def claim6Result : Store :=
  ⟨[⟨"75100", "210175100", some "Paris", "X", 1⟩],
   [⟨"75100001", some "Rue X", "insee:75100", some "way", some "S", 1⟩],
   [], [], []⟩

def claim7Store : Store :=
  ⟨[⟨"75100", "210175100", some "Paris", "X", 1⟩], [], [], [], []⟩

def claim7Row : Row :=
  [("type", "group"), ("municipality:insee", "75100"),
   ("group:fantoir", "123"), ("name", "Rue Y"),
   ("group", "way"), ("source", "S")]

def claim7Result : Store :=
  ⟨[⟨"75100", "210175100", some "Paris", "X", 1⟩],
   [⟨"123", some "Rue Y", "insee:75100", some "way", some "S", 1⟩],
   [], [], []⟩

def claim9Stored : HEntity := ⟨[("id", "1")], 3⟩

def claim10Store : Store :=
  ⟨[⟨"75100", "210175100", some "Paris", "X", 1⟩], [], [], [], []⟩

def claim1Store : Store :=
  ⟨[⟨"75100", "210175100", some "Paris", "X", 1⟩],
   [⟨"75100001", some "Rue X", "insee:75100", some "way", some "S", 1⟩],
   [], [⟨"75100_001_N12_-", some "12", none, "fantoir:75100001", 4⟩], []⟩

def claim1StoreNoHN : Store :=
  ⟨[⟨"75100", "210175100", some "Paris", "X", 1⟩],
   [⟨"75100001", some "Rue X", "insee:75100", some "way", some "S", 1⟩],
   [], [], []⟩

def claim1Row : Row :=
  [("numero", "12"), ("group:fantoir", "751000001"), ("source", "S")]

def claim2Store : Store :=
  ⟨[⟨"75100", "210175100", some "Paris", "X", 1⟩],
   [⟨"75100001", some "Rue Old", "insee:75100", some "way", some "S", 3⟩],
   [], [], []⟩

def claim2RowSame : Row :=
  [("type", "group"), ("municipality:insee", "75100"),
   ("group:fantoir", "751000001"), ("name", "Rue New"),
   ("group", "way"), ("source", "S")]

def claim2RowDiff : Row :=
  [("type", "group"), ("municipality:insee", "75100"),
   ("group:fantoir", "751000001"), ("name", "Rue New"),
   ("group", "way"), ("source", "T")]

def claim3Store : Store :=
  ⟨[⟨"75100", "210175100", some "Paris", "X", 1⟩],
   [], [⟨some "75008", some "Paris 8", "insee:75100", 1⟩], [], []⟩

def claim3Row : Row :=
  [("municipality:insee", "75100"), ("name", "Paris 8"), ("postcode", "75008")]

def claim4Store : Store :=
  ⟨[⟨"75100", "210175100", some "Paris", "X", 1⟩],
   [⟨"75100001", some "Rue Old", "insee:75100", some "way", some "S", 2⟩],
   [], [], []⟩

def claim4Row : Row :=
  [("municipality:insee", "75100"), ("group:fantoir", "751000001"),
   ("name", "Rue New"), ("group", "way"), ("source", "T")]

def claim4Result : Store :=
  ⟨[⟨"75100", "210175100", some "Paris", "X", 1⟩],
   [⟨"75100001", some "Rue New", "insee:75100", some "way", some "T", 3⟩],
   [], [], []⟩

/-! ## List lemmas used by the store-level theorems -/

theorem find?_map_replace {α : Type} (p : α → Bool) (h : α) (l : List α)
    (hp : p h = true) (hl : (List.find? p l).isSome) :
    List.find? p (List.map (fun x => if p x then h else x) l) = some h := by
  induction l with
  | nil => simp [List.find?] at hl
  | cons a l ih =>
    by_cases hpa : p a = true
    · simp [hpa, hp]
    · have hfa : p a = false := by simpa using hpa
      rw [List.find?_cons_of_neg _ (by simp [hfa])] at hl
      simpa [hfa] using ih hl

theorem find?_append_singleton {α : Type} (p : α → Bool) (h : α) (l : List α)
    (hp : p h = true) (hl : List.find? p l = none) :
    List.find? p (l ++ [h]) = some h := by
  simp [List.find?_append, hl, hp]

/-! ## The claims -/

/-- C5: the claim says that a record lacking the `type` key is recorded as a
structured error and processing continues; the code instead raises: line 36
is `kind = row.pop('type')`, and `dict.pop` without a default raises
`KeyError` for an absent key, so the `reporter.error('Missing "type" key',
row)` branch (which documents the intended behaviour) is unreachable for a
truly missing key. -/
theorem claim5_missing_type_raises :
    process_row emptyStore claim5Row = .error .keyError := rfl

/-- C6 counterexample: importing the Group row with raw
`group:fantoir = "751000001"` (9 characters) stores
`fantoir = "75100001"`, and no group with fantoir `"75100" ++ "0001"`
(= `"751000001"`) exists afterwards: slicing positions 6-10 of the
9-character raw yields `"001"`, not `"0001"`. -/
theorem claim6_fantoir_counterexample :
    process_row claim6Store claim6Row =
      .ok (claim6Result, [Report.notice "Created group" "75100001"]) ∧
    Store.findGroup claim6Result ("75100" ++ "0001") = none := ⟨rfl, rfl⟩

/-- C6 amended: for raw `group:fantoir = "751000001"` the stored fantoir is
`"75100" ++ "001" = "75100001"` (the slice at positions 6-10 of the
9-character raw has only 3 characters), and the Group is created with
version 1. -/
theorem claim6_fantoir_amended :
    deriveFantoir "751000001" = "75100" ++ "001" ∧
    process_row claim6Store claim6Row =
      .ok (claim6Result, [Report.notice "Created group" "75100001"]) ∧
    Store.findGroup claim6Result "75100001" =
      some ⟨"75100001", some "Rue X", "insee:75100", some "way", some "S", 1⟩ :=
  ⟨rfl, rfl, rfl⟩

/-- C7 counterexample: the raw fantoir `"123"` is shorter than the minimum
valid length, yet the derivation does not fail: the import silently stores
the truncated code `"123"` and reports a creation notice, not an error
(Python slicing never raises; no length check or `FormatError` exists in
the source). -/
theorem claim7_short_fantoir_counterexample :
    deriveFantoir "123" = "123" ∧
    process_row claim7Store claim7Row =
      .ok (claim7Result, [Report.notice "Created group" "123"]) := ⟨rfl, rfl⟩

/-- C7 amended: the fantoir derivation performs no length validation and
cannot fail; a raw input of length at most 5 passes through unchanged,
silently producing a truncated code. -/
theorem claim7_short_fantoir_amended (raw : String) (h : raw.length ≤ 5) :
    deriveFantoir raw = raw := by
  obtain ⟨l⟩ := raw
  have hlen : l.length ≤ 5 := h
  simp only [deriveFantoir, pySlice, pyDrop, String.toList, Nat.sub_zero]
  rw [List.drop_zero, List.take_of_length_le hlen,
    List.drop_eq_nil_of_le (by omega : l.length ≤ 6)]
  show String.mk (l ++ []) = String.mk l
  rw [List.append_nil]

theorem claim7_short_fantoir_amended_witness :
    ("123" : String).length ≤ 5 ∧ deriveFantoir "123" = "123" :=
  ⟨by decide, claim7_short_fantoir_amended "123" (by decide)⟩

/-- C8: a Position record whose `housenumber:cia` (after stripping the
control character at position 10) resolves to no stored HouseNumber is
rejected with an error report; the store is unchanged (no Position is
created) and the failure is a reported outcome, not a raised exception. -/
theorem claim8_position_missing_housenumber
    (st : Store) (row : Row) (rawCia : String)
    (hraw : Row.get row "housenumber:cia" = some rawCia)
    (hmiss : Store.findHousenumber st (stripControlChar rawCia) = none) :
    process_position st row =
      .ok (st, [Report.error "Position housenumber does not exist"
                  (stripControlChar rawCia)]) := by
  simp [process_position, hraw, hmiss, pure, Except.pure, Bind.bind, Except.bind]

theorem claim8_position_missing_housenumber_witness :
    process_position emptyStore [("housenumber:cia", "751000001AB12")] =
      .ok (emptyStore, [Report.error "Position housenumber does not exist"
                          (stripControlChar "751000001AB12")]) :=
  claim8_position_missing_housenumber emptyStore
    [("housenumber:cia", "751000001AB12")] "751000001AB12" rfl rfl

/-- C9 counterexample: a create-style save request (POST with no loaded
instance) whose persist step fails with a version conflict does not get a
409 response: evaluating `instance.ForcedVersionError` on `None` raises
`AttributeError`, which escapes `save_object`. -/
theorem claim9_conflict_counterexample :
    save_object [] PersistOutcome.conflict none false claim9Stored =
      .error PyError.attributeError := rfl

/-- C9 amended: when an existing instance was loaded (every PUT, and POST
with an identifier), a persist-step version conflict yields status 409 with
the current stored entity re-fetched from the store; a validation failure
yields status 422 with the field-keyed errors; but a conflict on a
create-style save (no loaded instance) instead raises an unhandled
`AttributeError`. -/
theorem claim9_conflict_amended :
    (∀ (inst stored : HEntity) (hasId : Bool),
      save_object [] PersistOutcome.conflict (some inst) hasId stored =
        .ok ⟨409, .resource stored⟩)
  ∧ (∀ (errors : List (String × String)) (persist : PersistOutcome)
        (inst : Option HEntity) (hasId : Bool) (stored : HEntity),
      errors ≠ [] →
      save_object errors persist inst hasId stored =
        .ok ⟨422, .fieldErrors errors⟩)
  ∧ (∀ stored : HEntity,
      save_object [] PersistOutcome.conflict none false stored =
        .error PyError.attributeError) := by
  refine ⟨fun inst stored hasId => rfl, fun errors persist inst hasId stored hne => ?_,
    fun stored => rfl⟩
  simp [save_object, hne]

theorem claim9_conflict_amended_witness :
    save_object [] PersistOutcome.conflict (some claim9Stored) true claim9Stored =
      .ok ⟨409, .resource claim9Stored⟩ ∧
    ([("name", "required")] : List (String × String)) ≠ [] ∧
    save_object [("name", "required")] (PersistOutcome.ok claim9Stored)
        (some claim9Stored) true claim9Stored =
      .ok ⟨422, .fieldErrors [("name", "required")]⟩ :=
  ⟨claim9_conflict_amended.1 claim9Stored claim9Stored true, by decide,
    claim9_conflict_amended.2.1 [("name", "required")] (PersistOutcome.ok claim9Stored)
      (some claim9Stored) true claim9Stored (by decide)⟩

/-- C10 counterexample: a record whose `type` key is present with the empty
value is not among the five known kinds, yet the driver is not silent: it
reports the structured error `Missing "type" key` (the Python truthiness
test `if not kind` fires on the empty string). -/
theorem claim10_unknown_type_counterexample :
    process_row claim10Store [("type", "")] =
      .ok (claim10Store, [Report.error "Missing \"type\" key" ""]) := rfl

/-- C10 amended: for a record whose `type` value is present, non-empty, and
none of the five known kinds, the driver silently does nothing: the store
is unchanged and no outcome of any kind is reported; but a present-and-empty
`type` value is reported as a structured error. -/
theorem claim10_unknown_type_amended
    (st : Store) (row : Row) (k : String)
    (hk : Row.get row "type" = some k)
    (hne : k ≠ "")
    (h1 : k ≠ "municipality") (h2 : k ≠ "group") (h3 : k ≠ "postcode")
    (h4 : k ≠ "housenumber") (h5 : k ≠ "position") :
    process_row st row = .ok (st, []) := by
  simp [process_row, Row.pop, hk, hne, h1, h2, h3, h4, h5, Bind.bind, Except.bind,
    pure, Except.pure]

theorem claim10_unknown_type_amended_witness :
    process_row claim10Store [("type", "wibble")] = .ok (claim10Store, []) :=
  claim10_unknown_type_amended claim10Store [("type", "wibble")] "wibble"
    rfl (by decide) (by decide) (by decide) (by decide) (by decide) (by decide)

/-- C2: for a Group record whose derived fantoir is already stored, an
incoming `source` equal to the stored instance's attributes source produces
a warning and leaves the store (version and all fields) unchanged; a
different `source` increments the version by exactly 1 and overwrites all
fields with the incoming data. -/
theorem claim2_group_source_dedup
    (st : Store) (row : Row) (raw fantoir municipality : String) (inst : GroupE)
    (hraw : Row.get row "group:fantoir" = some raw)
    (hfan : deriveFantoir raw = fantoir)
    (hmun : "insee:" ++ formatOpt (Row.get row "municipality:insee") = municipality)
    (hfind : Store.findGroup st fantoir = some inst) :
    (inst.source = Row.get row "source" →
      process_group st row = .ok (st, [Report.warning "Group already exist" fantoir]))
  ∧ (inst.source ≠ Row.get row "source" →
      groupValidatorErrors st (Row.get row "name") (Row.get row "group") municipality
        = false →
      ∃ st₁,
        process_group st row = .ok (st₁, [Report.notice "Created group" fantoir]) ∧
        Store.findGroup st₁ fantoir =
          some ⟨fantoir, Row.get row "name", municipality, Row.get row "group",
            Row.get row "source", inst.version + 1⟩) := by
  subst hfan hmun
  constructor
  · intro hsrc
    simp [process_group, Bind.bind, Except.bind, pure, Except.pure, hraw, hfind, hsrc]
  · intro hsrc hval
    refine ⟨Store.saveGroup st true
      ⟨deriveFantoir raw, Row.get row "name",
        "insee:" ++ formatOpt (Row.get row "municipality:insee"),
        Row.get row "group", Row.get row "source", inst.version + 1⟩, ?_, ?_⟩
    · simp [process_group, Bind.bind, Except.bind, pure, Except.pure, hraw, hfind,
        hsrc, hval]
    · have hsome : (List.find? (fun x => x.fantoir == deriveFantoir raw) st.groups).isSome := by
        unfold Store.findGroup at hfind
        simp [hfind]
      simpa [Store.findGroup, Store.saveGroup] using
        find?_map_replace (fun x => x.fantoir == deriveFantoir raw) _ st.groups
          (by simp) hsome

theorem claim2_group_source_dedup_witness :
    process_group claim2Store claim2RowSame =
      .ok (claim2Store, [Report.warning "Group already exist" "75100001"]) ∧
    (∃ st₁,
      process_group claim2Store claim2RowDiff =
        .ok (st₁, [Report.notice "Created group" "75100001"]) ∧
      Store.findGroup st₁ "75100001" =
        some ⟨"75100001", some "Rue New", "insee:75100", some "way", some "T", 4⟩) :=
  ⟨(claim2_group_source_dedup claim2Store claim2RowSame "751000001" "75100001"
      "insee:75100" ⟨"75100001", some "Rue Old", "insee:75100", some "way", some "S", 3⟩
      rfl rfl rfl rfl).1 rfl,
   (claim2_group_source_dedup claim2Store claim2RowDiff "751000001" "75100001"
      "insee:75100" ⟨"75100001", some "Rue Old", "insee:75100", some "way", some "S", 3⟩
      rfl rfl rfl rfl).2 (by decide) rfl⟩

/-- C3: a PostCode record whose `(code, name)` pair is already stored is a
no-op skip — a notice outcome is emitted and the store is unchanged (no
version bump and no field update) — and, consequently, importing any
PostCode row twice has the same store effect as importing it once. -/
theorem claim3_postcode_create_once (st : Store) (row : Row) :
    (∀ inst,
      Store.findPostCode st (Row.get row "postcode") (Row.get row "name") = some inst →
      process_postcode st row =
        (st, [Report.notice "PostCode already exists"
                (formatOpt (Row.get row "postcode"))]))
  ∧ (process_postcode (process_postcode st row).1 row).1 = (process_postcode st row).1 := by
  constructor
  · intro inst hfind
    simp [process_postcode, hfind]
  · rcases hfind : Store.findPostCode st (Row.get row "postcode") (Row.get row "name") with
      _ | inst
    · rcases hval : postcodeValidatorErrors st (Row.get row "name")
        (Row.get row "postcode")
        ("insee:" ++ formatOpt (Row.get row "municipality:insee")) with _ | _
      · have hfirst : process_postcode st row =
            (Store.savePostCode st
              ⟨Row.get row "postcode", Row.get row "name",
                "insee:" ++ formatOpt (Row.get row "municipality:insee"), 1⟩,
             [Report.notice "Imported PostCode" (formatOpt (Row.get row "postcode"))]) := by
          simp [process_postcode, hfind, hval]
        rw [hfirst]
        have hfind₁ : Store.findPostCode
            (Store.savePostCode st
              ⟨Row.get row "postcode", Row.get row "name",
                "insee:" ++ formatOpt (Row.get row "municipality:insee"), 1⟩)
            (Row.get row "postcode") (Row.get row "name") =
            some ⟨Row.get row "postcode", Row.get row "name",
              "insee:" ++ formatOpt (Row.get row "municipality:insee"), 1⟩ := by
          unfold Store.findPostCode at hfind
          simpa [Store.findPostCode, Store.savePostCode] using
            find?_append_singleton
              (fun p => p.code == Row.get row "postcode" && p.name == Row.get row "name")
              ⟨Row.get row "postcode", Row.get row "name",
                "insee:" ++ formatOpt (Row.get row "municipality:insee"), 1⟩
              st.postcodes (by simp) hfind
        simp [process_postcode, hfind₁]
      · have hfirst : process_postcode st row =
            (st, [Report.error "PostCode errors" (formatOpt (Row.get row "postcode"))]) := by
          simp [process_postcode, hfind, hval]
        rw [hfirst]
        simp [process_postcode, hfind, hval]
    · have hfirst : process_postcode st row =
          (st, [Report.notice "PostCode already exists"
                  (formatOpt (Row.get row "postcode"))]) := by
        simp [process_postcode, hfind]
      rw [hfirst]
      simp [process_postcode, hfind]

theorem claim3_postcode_create_once_witness :
    process_postcode claim3Store claim3Row =
      (claim3Store, [Report.notice "PostCode already exists" "75008"]) ∧
    (process_postcode (process_postcode claim3Store claim3Row).1 claim3Row).1 =
      (process_postcode claim3Store claim3Row).1 :=
  ⟨(claim3_postcode_create_once claim3Store claim3Row).1
      ⟨some "75008", some "Paris 8", "insee:75100", 1⟩ rfl,
   (claim3_postcode_create_once claim3Store claim3Row).2⟩

/-- Saving a house number touches only the housenumber table, so the
validator's parent-group resolution is unaffected. -/
theorem housenumberValidator_saveHousenumber (st : Store) (u : Bool)
    (h : HouseNumberE) (number : Option String) (parent : String) :
    housenumberValidatorErrors (Store.saveHousenumber st u h) number parent =
      housenumberValidatorErrors st number parent := by
  cases u <;> rfl

/-- C1: a HouseNumber record whose CIA is already stored is always an
update — version incremented by exactly 1, all fields overwritten, with no
source-based dedup skip — and importing the identical record twice into a
store without that CIA yields version 1 then version 2 with identical
field values. -/
theorem claim1_housenumber_always_update
    (st : Store) (row : Row) (raw cia parent : String)
    (hraw : Row.get row "group:fantoir" = some raw)
    (hcia : compute_cia (pySlice raw 0 5) (pySlice raw 6 10)
        (Row.get row "numero") (ordinalOf row) = cia)
    (hpar : "fantoir:" ++ deriveFantoir raw = parent)
    (hval : housenumberValidatorErrors st (Row.get row "numero") parent = false) :
    (∀ inst, Store.findHousenumber st cia = some inst →
      ∃ st₁,
        process_housenumber st row =
          .ok (st₁, [Report.notice "HouseNumber Updated" parent]) ∧
        Store.findHousenumber st₁ cia =
          some ⟨cia, Row.get row "numero", ordinalOf row, parent, inst.version + 1⟩)
  ∧ (Store.findHousenumber st cia = none →
      ∃ st₁ st₂,
        process_housenumber st row =
          .ok (st₁, [Report.notice "HouseNumber created" parent]) ∧
        Store.findHousenumber st₁ cia =
          some ⟨cia, Row.get row "numero", ordinalOf row, parent, 1⟩ ∧
        process_housenumber st₁ row =
          .ok (st₂, [Report.notice "HouseNumber Updated" parent]) ∧
        Store.findHousenumber st₂ cia =
          some ⟨cia, Row.get row "numero", ordinalOf row, parent, 2⟩) := by
  subst hcia hpar
  constructor
  · intro inst hfind
    refine ⟨Store.saveHousenumber st true
      ⟨compute_cia (pySlice raw 0 5) (pySlice raw 6 10) (Row.get row "numero")
          (ordinalOf row),
        Row.get row "numero", ordinalOf row, "fantoir:" ++ deriveFantoir raw,
        inst.version + 1⟩, ?_, ?_⟩
    · simp [process_housenumber, Bind.bind, Except.bind, pure, Except.pure, hraw,
        hfind, hval]
    · have hsome : (List.find? (fun x => x.cia ==
          compute_cia (pySlice raw 0 5) (pySlice raw 6 10) (Row.get row "numero")
            (ordinalOf row)) st.housenumbers).isSome := by
        unfold Store.findHousenumber at hfind
        simp [hfind]
      simpa [Store.findHousenumber, Store.saveHousenumber] using
        find?_map_replace _ _ st.housenumbers (by simp) hsome
  · intro hfind
    refine ⟨Store.saveHousenumber st false
      ⟨compute_cia (pySlice raw 0 5) (pySlice raw 6 10) (Row.get row "numero")
          (ordinalOf row),
        Row.get row "numero", ordinalOf row, "fantoir:" ++ deriveFantoir raw, 1⟩,
      ?_⟩
    have hrun₁ : process_housenumber st row =
        .ok (Store.saveHousenumber st false
          ⟨compute_cia (pySlice raw 0 5) (pySlice raw 6 10) (Row.get row "numero")
              (ordinalOf row),
            Row.get row "numero", ordinalOf row, "fantoir:" ++ deriveFantoir raw, 1⟩,
          [Report.notice "HouseNumber created" ("fantoir:" ++ deriveFantoir raw)]) := by
      simp [process_housenumber, Bind.bind, Except.bind, pure, Except.pure, hraw,
        hfind, hval]
    have hfind₁ : Store.findHousenumber
        (Store.saveHousenumber st false
          ⟨compute_cia (pySlice raw 0 5) (pySlice raw 6 10) (Row.get row "numero")
              (ordinalOf row),
            Row.get row "numero", ordinalOf row, "fantoir:" ++ deriveFantoir raw, 1⟩)
        (compute_cia (pySlice raw 0 5) (pySlice raw 6 10) (Row.get row "numero")
          (ordinalOf row)) =
        some ⟨compute_cia (pySlice raw 0 5) (pySlice raw 6 10) (Row.get row "numero")
            (ordinalOf row),
          Row.get row "numero", ordinalOf row, "fantoir:" ++ deriveFantoir raw, 1⟩ := by
      unfold Store.findHousenumber at hfind
      simpa [Store.findHousenumber, Store.saveHousenumber] using
        find?_append_singleton
          (fun x => x.cia == compute_cia (pySlice raw 0 5) (pySlice raw 6 10)
            (Row.get row "numero") (ordinalOf row))
          ⟨compute_cia (pySlice raw 0 5) (pySlice raw 6 10) (Row.get row "numero")
              (ordinalOf row),
            Row.get row "numero", ordinalOf row, "fantoir:" ++ deriveFantoir raw, 1⟩
          st.housenumbers (by simp) hfind
    have hval₁ : housenumberValidatorErrors
        (Store.saveHousenumber st false
          ⟨compute_cia (pySlice raw 0 5) (pySlice raw 6 10) (Row.get row "numero")
              (ordinalOf row),
            Row.get row "numero", ordinalOf row, "fantoir:" ++ deriveFantoir raw, 1⟩)
        (Row.get row "numero") ("fantoir:" ++ deriveFantoir raw) = false := by
      rw [housenumberValidator_saveHousenumber]
      exact hval
    refine ⟨Store.saveHousenumber
      (Store.saveHousenumber st false
        ⟨compute_cia (pySlice raw 0 5) (pySlice raw 6 10) (Row.get row "numero")
            (ordinalOf row),
          Row.get row "numero", ordinalOf row, "fantoir:" ++ deriveFantoir raw, 1⟩)
      true
      ⟨compute_cia (pySlice raw 0 5) (pySlice raw 6 10) (Row.get row "numero")
          (ordinalOf row),
        Row.get row "numero", ordinalOf row, "fantoir:" ++ deriveFantoir raw, 2⟩,
      hrun₁, hfind₁, ?_, ?_⟩
    · simp [process_housenumber, Bind.bind, Except.bind, pure, Except.pure, hraw,
        hfind₁, hval₁]
    · have hsome₁ : (List.find? (fun x => x.cia ==
          compute_cia (pySlice raw 0 5) (pySlice raw 6 10) (Row.get row "numero")
            (ordinalOf row))
          (Store.saveHousenumber st false
            ⟨compute_cia (pySlice raw 0 5) (pySlice raw 6 10) (Row.get row "numero")
                (ordinalOf row),
              Row.get row "numero", ordinalOf row,
              "fantoir:" ++ deriveFantoir raw, 1⟩).housenumbers).isSome := by
        unfold Store.findHousenumber at hfind₁
        simp [hfind₁]
      simpa [Store.findHousenumber, Store.saveHousenumber] using
        find?_map_replace
          (fun x => x.cia == compute_cia (pySlice raw 0 5) (pySlice raw 6 10)
            (Row.get row "numero") (ordinalOf row))
          ⟨compute_cia (pySlice raw 0 5) (pySlice raw 6 10) (Row.get row "numero")
              (ordinalOf row),
            Row.get row "numero", ordinalOf row, "fantoir:" ++ deriveFantoir raw, 2⟩
          (Store.saveHousenumber st false
            ⟨compute_cia (pySlice raw 0 5) (pySlice raw 6 10) (Row.get row "numero")
                (ordinalOf row),
              Row.get row "numero", ordinalOf row,
              "fantoir:" ++ deriveFantoir raw, 1⟩).housenumbers
          (by simp) hsome₁

theorem claim1_housenumber_always_update_witness :
    (∃ st₁,
      process_housenumber claim1Store claim1Row =
        .ok (st₁, [Report.notice "HouseNumber Updated" "fantoir:75100001"]) ∧
      Store.findHousenumber st₁ "75100_001_N12_-" =
        some ⟨"75100_001_N12_-", some "12", none, "fantoir:75100001", 5⟩) ∧
    (∃ st₁ st₂,
      process_housenumber claim1StoreNoHN claim1Row =
        .ok (st₁, [Report.notice "HouseNumber created" "fantoir:75100001"]) ∧
      Store.findHousenumber st₁ "75100_001_N12_-" =
        some ⟨"75100_001_N12_-", some "12", none, "fantoir:75100001", 1⟩ ∧
      process_housenumber st₁ claim1Row =
        .ok (st₂, [Report.notice "HouseNumber Updated" "fantoir:75100001"]) ∧
      Store.findHousenumber st₂ "75100_001_N12_-" =
        some ⟨"75100_001_N12_-", some "12", none, "fantoir:75100001", 2⟩) :=
  ⟨(claim1_housenumber_always_update claim1Store claim1Row "751000001"
      "75100_001_N12_-" "fantoir:75100001" rfl rfl rfl rfl).1
      ⟨"75100_001_N12_-", some "12", none, "fantoir:75100001", 4⟩ rfl,
   (claim1_housenumber_always_update claim1StoreNoHN claim1Row "751000001"
      "75100_001_N12_-" "fantoir:75100001" rfl rfl rfl rfl).2 rfl⟩

/-- C4: on every successful import save the persisted version follows the
change-set rule — the found instance's version + 1 for an update, exactly 1
for a create — for each of the five entity kinds. -/
theorem claim4_changeset_version (st : Store) (row : Row) :
    (∀ st' m a, process_municipality st row = .ok (st', [Report.notice m a]) →
      ∃ mu, st'.municipalities = st.municipalities ++ [mu] ∧ mu.version = 1)
  ∧ (∀ raw fantoir, Row.get row "group:fantoir" = some raw →
      deriveFantoir raw = fantoir →
      ∀ st' m a, process_group st row = .ok (st', [Report.notice m a]) →
      ∃ g, Store.findGroup st' fantoir = some g ∧
        g.version = (match Store.findGroup st fantoir with
          | some i => i.version + 1 | none => 1))
  ∧ (∀ a, (process_postcode st row).2 = [Report.notice "Imported PostCode" a] →
      ∃ p, (process_postcode st row).1.postcodes = st.postcodes ++ [p] ∧
        p.version = 1)
  ∧ (∀ raw cia, Row.get row "group:fantoir" = some raw →
      compute_cia (pySlice raw 0 5) (pySlice raw 6 10) (Row.get row "numero")
        (ordinalOf row) = cia →
      ∀ st' m a, process_housenumber st row = .ok (st', [Report.notice m a]) →
      ∃ h, Store.findHousenumber st' cia = some h ∧
        h.version = (match Store.findHousenumber st cia with
          | some i => i.version + 1 | none => 1))
  ∧ (∀ rawCia cia, Row.get row "housenumber:cia" = some rawCia →
      stripControlChar rawCia = cia →
      ∀ st' m a, process_position st row = .ok (st', [Report.notice m a]) →
      ∃ hn, Store.findHousenumber st cia = some hn ∧
        ∃ p, Store.findPosition st' hn.cia (Row.get row "kind") (Row.get row "source")
            = some p ∧
          p.version = (match Store.findPosition st hn.cia (Row.get row "kind")
              (Row.get row "source") with
            | some i => i.version + 1 | none => 1)) := by
  refine ⟨?_, ?_, ?_, ?_, ?_⟩
  · intro st' m a hrun
    cases hpop : Row.pop row "source" with
    | error e => simp [process_municipality, hpop, Bind.bind, Except.bind] at hrun
    | ok v =>
      obtain ⟨s, row₂⟩ := v
      cases hitem : Row.item row₂ "insee" with
      | error e =>
        simp [process_municipality, hpop, hitem, Bind.bind, Except.bind] at hrun
      | ok insee =>
        cases hve : municipalityValidatorErrors (Row.get row₂ "name") with
        | true =>
          simp [process_municipality, hpop, hitem, hve, Bind.bind, Except.bind,
            pure, Except.pure] at hrun
        | false =>
          simp only [process_municipality, hpop, hitem, Bind.bind, Except.bind,
            pure, Except.pure] at hrun
          rw [if_neg (by simp [hve])] at hrun
          have hst : st' = Store.saveMunicipality st
              ⟨insee, "2101" ++ insee, Row.get row₂ "name", s, 1⟩ :=
            (congrArg Prod.fst (Except.ok.inj hrun)).symm
          subst hst
          exact ⟨⟨insee, "2101" ++ insee, Row.get row₂ "name", s, 1⟩, rfl, rfl⟩
  · intro raw fantoir hraw hfan st' m a hrun
    subst hfan
    simp only [process_group, Bind.bind, Except.bind, pure, Except.pure, hraw] at hrun
    cases hfind : Store.findGroup st (deriveFantoir raw) with
    | some inst =>
      simp only [hfind] at hrun
      cases hsrc : inst.source == Row.get row "source" with
      | true => simp [hsrc] at hrun
      | false =>
        rw [if_neg (by simp [hsrc])] at hrun
        cases hve : groupValidatorErrors st (Row.get row "name") (Row.get row "group")
            ("insee:" ++ formatOpt (Row.get row "municipality:insee")) with
        | true => simp [hve] at hrun
        | false =>
          rw [if_neg (by simp [hve])] at hrun
          have hst : st' = Store.saveGroup st true
              ⟨deriveFantoir raw, Row.get row "name",
                "insee:" ++ formatOpt (Row.get row "municipality:insee"),
                Row.get row "group", Row.get row "source", inst.version + 1⟩ :=
            (congrArg Prod.fst (Except.ok.inj hrun)).symm
          subst hst
          refine ⟨⟨deriveFantoir raw, Row.get row "name",
            "insee:" ++ formatOpt (Row.get row "municipality:insee"),
            Row.get row "group", Row.get row "source", inst.version + 1⟩, ?_, ?_⟩
          · have hsome : (List.find? (fun x => x.fantoir == deriveFantoir raw)
                st.groups).isSome := by
              unfold Store.findGroup at hfind
              simp [hfind]
            simpa [Store.findGroup, Store.saveGroup] using
              find?_map_replace (fun x => x.fantoir == deriveFantoir raw)
                ⟨deriveFantoir raw, Row.get row "name",
                  "insee:" ++ formatOpt (Row.get row "municipality:insee"),
                  Row.get row "group", Row.get row "source", inst.version + 1⟩
                st.groups (by simp) hsome
          · simp [hfind]
    | none =>
      simp only [hfind] at hrun
      cases hve : groupValidatorErrors st (Row.get row "name") (Row.get row "group")
          ("insee:" ++ formatOpt (Row.get row "municipality:insee")) with
      | true => simp [hve] at hrun
      | false =>
        rw [if_neg (by simp [hve])] at hrun
        have hst : st' = Store.saveGroup st false
            ⟨deriveFantoir raw, Row.get row "name",
              "insee:" ++ formatOpt (Row.get row "municipality:insee"),
              Row.get row "group", Row.get row "source", 1⟩ :=
          (congrArg Prod.fst (Except.ok.inj hrun)).symm
        subst hst
        refine ⟨⟨deriveFantoir raw, Row.get row "name",
          "insee:" ++ formatOpt (Row.get row "municipality:insee"),
          Row.get row "group", Row.get row "source", 1⟩, ?_, ?_⟩
        · unfold Store.findGroup at hfind
          simpa [Store.findGroup, Store.saveGroup] using
            find?_append_singleton (fun x => x.fantoir == deriveFantoir raw)
              ⟨deriveFantoir raw, Row.get row "name",
                "insee:" ++ formatOpt (Row.get row "municipality:insee"),
                Row.get row "group", Row.get row "source", 1⟩
              st.groups (by simp) hfind
        · simp [hfind]
  · intro a hrep
    cases hfind : Store.findPostCode st (Row.get row "postcode") (Row.get row "name") with
    | some inst =>
      rw [show (process_postcode st row).2 =
          [Report.notice "PostCode already exists" (formatOpt (Row.get row "postcode"))]
        from by simp [process_postcode, hfind]] at hrep
      exact absurd (Report.notice.inj (List.cons.inj hrep).1).1 (by decide)
    | none =>
      cases hve : postcodeValidatorErrors st (Row.get row "name") (Row.get row "postcode")
          ("insee:" ++ formatOpt (Row.get row "municipality:insee")) with
      | true =>
        rw [show (process_postcode st row).2 =
            [Report.error "PostCode errors" (formatOpt (Row.get row "postcode"))]
          from by simp [process_postcode, hfind, hve]] at hrep
        exact Report.noConfusion (List.cons.inj hrep).1
      | false =>
        refine ⟨⟨Row.get row "postcode", Row.get row "name",
          "insee:" ++ formatOpt (Row.get row "municipality:insee"), 1⟩, ?_, rfl⟩
        rw [show (process_postcode st row).1 = Store.savePostCode st
            ⟨Row.get row "postcode", Row.get row "name",
              "insee:" ++ formatOpt (Row.get row "municipality:insee"), 1⟩
          from by simp [process_postcode, hfind, hve]]
        rfl
  · intro raw cia hraw hcia st' m a hrun
    subst hcia
    simp only [process_housenumber, Bind.bind, Except.bind, pure, Except.pure,
      hraw] at hrun
    cases hfind : Store.findHousenumber st
        (compute_cia (pySlice raw 0 5) (pySlice raw 6 10) (Row.get row "numero")
          (ordinalOf row)) with
    | some inst =>
      simp only [hfind] at hrun
      cases hve : housenumberValidatorErrors st (Row.get row "numero")
          ("fantoir:" ++ deriveFantoir raw) with
      | true => simp [hve] at hrun
      | false =>
        rw [if_neg (by simp [hve])] at hrun
        have hst : st' = Store.saveHousenumber st true
            ⟨compute_cia (pySlice raw 0 5) (pySlice raw 6 10) (Row.get row "numero")
                (ordinalOf row),
              Row.get row "numero", ordinalOf row, "fantoir:" ++ deriveFantoir raw,
              inst.version + 1⟩ :=
          (congrArg Prod.fst (Except.ok.inj hrun)).symm
        subst hst
        refine ⟨⟨compute_cia (pySlice raw 0 5) (pySlice raw 6 10)
            (Row.get row "numero") (ordinalOf row),
          Row.get row "numero", ordinalOf row, "fantoir:" ++ deriveFantoir raw,
          inst.version + 1⟩, ?_, ?_⟩
        · have hsome : (List.find? (fun x => x.cia ==
              compute_cia (pySlice raw 0 5) (pySlice raw 6 10) (Row.get row "numero")
                (ordinalOf row)) st.housenumbers).isSome := by
            unfold Store.findHousenumber at hfind
            simp [hfind]
          simpa [Store.findHousenumber, Store.saveHousenumber] using
            find?_map_replace
              (fun x => x.cia == compute_cia (pySlice raw 0 5) (pySlice raw 6 10)
                (Row.get row "numero") (ordinalOf row))
              ⟨compute_cia (pySlice raw 0 5) (pySlice raw 6 10) (Row.get row "numero")
                  (ordinalOf row),
                Row.get row "numero", ordinalOf row, "fantoir:" ++ deriveFantoir raw,
                inst.version + 1⟩
              st.housenumbers (by simp) hsome
        · simp [hfind]
    | none =>
      simp only [hfind] at hrun
      cases hve : housenumberValidatorErrors st (Row.get row "numero")
          ("fantoir:" ++ deriveFantoir raw) with
      | true => simp [hve] at hrun
      | false =>
        rw [if_neg (by simp [hve])] at hrun
        have hst : st' = Store.saveHousenumber st false
            ⟨compute_cia (pySlice raw 0 5) (pySlice raw 6 10) (Row.get row "numero")
                (ordinalOf row),
              Row.get row "numero", ordinalOf row, "fantoir:" ++ deriveFantoir raw, 1⟩ :=
          (congrArg Prod.fst (Except.ok.inj hrun)).symm
        subst hst
        refine ⟨⟨compute_cia (pySlice raw 0 5) (pySlice raw 6 10)
            (Row.get row "numero") (ordinalOf row),
          Row.get row "numero", ordinalOf row, "fantoir:" ++ deriveFantoir raw, 1⟩,
          ?_, ?_⟩
        · unfold Store.findHousenumber at hfind
          simpa [Store.findHousenumber, Store.saveHousenumber] using
            find?_append_singleton
              (fun x => x.cia == compute_cia (pySlice raw 0 5) (pySlice raw 6 10)
                (Row.get row "numero") (ordinalOf row))
              ⟨compute_cia (pySlice raw 0 5) (pySlice raw 6 10) (Row.get row "numero")
                  (ordinalOf row),
                Row.get row "numero", ordinalOf row, "fantoir:" ++ deriveFantoir raw, 1⟩
              st.housenumbers (by simp) hfind
        · simp [hfind]
  · intro rawCia cia hraw hcia st' m a hrun
    subst hcia
    simp only [process_position, Bind.bind, Except.bind, pure, Except.pure,
      hraw] at hrun
    cases hfindHN : Store.findHousenumber st (stripControlChar rawCia) with
    | none => simp [hfindHN] at hrun
    | some hn =>
      simp only [hfindHN] at hrun
      refine ⟨hn, rfl, ?_⟩
      cases hve : positionValidatorErrors (Row.get row "kind") (Row.get row "geometry") with
      | true => simp [hve] at hrun
      | false =>
        rw [if_neg (by simp [hve])] at hrun
        cases hfindP : Store.findPosition st hn.cia (Row.get row "kind")
            (Row.get row "source") with
        | some inst =>
          simp only [hfindP] at hrun
          have hst : st' = Store.savePosition st true
              ⟨hn.cia, Row.get row "kind", Row.get row "source",
                Row.get row "geometry", "other", inst.version + 1⟩ :=
            (congrArg Prod.fst (Except.ok.inj hrun)).symm
          subst hst
          refine ⟨⟨hn.cia, Row.get row "kind", Row.get row "source",
            Row.get row "geometry", "other", inst.version + 1⟩, ?_, ?_⟩
          · have hsome : (List.find? (fun p => p.housenumber == hn.cia &&
                p.kind == Row.get row "kind" && p.source == Row.get row "source")
                st.positions).isSome := by
              unfold Store.findPosition at hfindP
              simp [hfindP]
            simpa [Store.findPosition, Store.savePosition] using
              find?_map_replace
                (fun p => p.housenumber == hn.cia && p.kind == Row.get row "kind" &&
                  p.source == Row.get row "source")
                ⟨hn.cia, Row.get row "kind", Row.get row "source",
                  Row.get row "geometry", "other", inst.version + 1⟩
                st.positions (by simp) hsome
          · simp [hfindP]
        | none =>
          simp only [hfindP] at hrun
          have hst : st' = Store.savePosition st false
              ⟨hn.cia, Row.get row "kind", Row.get row "source",
                Row.get row "geometry", "other", 1⟩ :=
            (congrArg Prod.fst (Except.ok.inj hrun)).symm
          subst hst
          refine ⟨⟨hn.cia, Row.get row "kind", Row.get row "source",
            Row.get row "geometry", "other", 1⟩, ?_, ?_⟩
          · unfold Store.findPosition at hfindP
            simpa [Store.findPosition, Store.savePosition] using
              find?_append_singleton
                (fun p => p.housenumber == hn.cia && p.kind == Row.get row "kind" &&
                  p.source == Row.get row "source")
                ⟨hn.cia, Row.get row "kind", Row.get row "source",
                  Row.get row "geometry", "other", 1⟩
                st.positions (by simp) hfindP
          · simp [hfindP]

theorem claim4_changeset_version_witness :
    ∃ g, Store.findGroup claim4Result "75100001" = some g ∧
      g.version = (match Store.findGroup claim4Store "75100001" with
        | some i => i.version + 1 | none => 1) :=
  (claim4_changeset_version claim4Store claim4Row).2.1 "751000001" "75100001"
    rfl rfl claim4Result "Created group" "75100001" rfl
